import Mathlib

/-!
Verification of the car-following monitor client (`run_monitor.py`).

The development shallowly embeds the pure/decidable parts of the script:
role-name string matching, the actor lookup loops of `VehicleMonitor` and
`SensorMonitorManager`, the display-grid arithmetic of `DisplayManager`,
the `fit_display` resize computation, the event-draining render loop, and
the teardown block of `monitor_loop`.  Python exceptions raised by the
embedded fragments (`AttributeError` on reading an attribute that was
never assigned, the never-reached `ValueError`) are modelled with
`Except PyError`.  Role-name strings are modelled as `List Char`; Python's
substring operator `in` is embedded as `pyIn`.  The `int()` coercions of
the display arithmetic (Python true division followed by truncation) are
modelled with rational division and `Int.floor`, which agrees with
truncation on the non-negative values arising here.
-/

set_option autoImplicit false

namespace CarMonitor

/-- Python exception classes that the embedded fragments can raise. -/
inductive PyError where
  | attributeError
  | valueError
  deriving DecidableEq, Repr

/-- Role-name strings are modelled as lists of characters. -/
abbrev Chars := List Char

/-- Test whether the first list is an initial segment of the second
(the basic step of Python's substring operator `in`). -/
def leadMatch : Chars → Chars → Bool
  | [], _ => true
  | _ :: _, [] => false
  | a :: as, b :: bs => a == b && leadMatch as bs

/-- Python's substring operator `needle in hay` on strings: some
contiguous run of `hay` equals `needle`. -/
def pyIn (needle : Chars) : Chars → Bool
  | [] => leadMatch needle []
  | hay@(_ :: rest) => leadMatch needle hay || pyIn needle rest

/-- A simulator actor, reduced to the one attribute the script reads:
`attributes['role_name']`. -/
structure Actor where
  role_name : Chars
  deriving DecidableEq, Repr

/-- The world snapshot, reduced to what `VehicleMonitor.__init__` reads:
`get_actors().filter('vehicle.*')` and `get_actors().filter('sensor.*')`. -/
structure World where
  vehicles : List Actor
  sensors : List Actor
  deriving DecidableEq, Repr

theorem leadMatch_iff (n h : Chars) : leadMatch n h = true ↔ n <+: h := by
  induction n generalizing h with
  | nil => simp [leadMatch]
  | cons a as ih =>
    cases h with
    | nil => simp [leadMatch]
    | cons b bs =>
      simp only [leadMatch, Bool.and_eq_true, beq_iff_eq, ih,
        List.cons_prefix_cons]

theorem pyIn_iff (n h : Chars) : pyIn n h = true ↔ n <:+: h := by
  induction h with
  | nil => simpa [pyIn] using leadMatch_iff n []
  | cons b bs ih =>
    simp only [pyIn, Bool.or_eq_true, leadMatch_iff, ih]
    exact (List.infix_cons_iff).symm

namespace VehicleMonitor

/-- The vehicle-lookup loop of `VehicleMonitor.__init__` (lines 158-161):
iterate over the vehicle actors, assign `self.vehicle` to the first one
whose `role_name` attribute equals the configured role name, and break.
Returns `none` when the loop finishes without ever assigning the
attribute. -/
def findVehicle (roleName : Chars) : List Actor → Option Actor
  | [] => none
  | v :: vs => if v.role_name = roleName then some v else findVehicle roleName vs

/-- The sensor-collection loop of `VehicleMonitor.__init__` (lines
167-169): append to `self.sensors` every sensor actor whose `role_name`
attribute contains the configured role name as a substring. -/
def sensorLoop (roleName : Chars) : List Actor → List Actor → List Actor
  | [], acc => acc
  | s :: ss, acc =>
      if pyIn roleName s.role_name then sensorLoop roleName ss (acc ++ [s])
      else sensorLoop roleName ss acc

/-- The state of a constructed `VehicleMonitor`: the selected vehicle and
the collected sensor list. -/
structure State where
  vehicle : Actor
  sensors : List Actor
  deriving DecidableEq, Repr

/-- Reading a Python attribute that the loop may never have assigned:
`none` means the attribute does not exist, so the read raises
`AttributeError`. -/
def readAttr {α : Type} : Option α → Except PyError α
  | none => Except.error PyError.attributeError
  | some a => Except.ok a

/-- Python's `is None` test applied to a value that is a bound actor
object (the loop only ever stores real actors): always false. -/
def actorIsNone (_ : Actor) : Bool := false

/-- `VehicleMonitor.__init__` (lines 152-169).  The vehicle loop assigns
`self.vehicle` only on a match; the subsequent `if self.vehicle is None`
check first has to read `self.vehicle`, which raises `AttributeError`
when the loop never assigned it.  When a vehicle was assigned it is an
actor, never Python `None`, so the `ValueError` branch is dead; the
sensor loop then fills `self.sensors`. -/
def init (world : World) (roleName : Chars) : Except PyError State := do
  let v ← readAttr (findVehicle roleName world.vehicles)
  if actorIsNone v then
    Except.error PyError.valueError
  else
    Except.ok ⟨v, sensorLoop roleName world.sensors []⟩

end VehicleMonitor

/-- The display manager, reduced to the two fields its layout arithmetic
reads.  `grid_size` is `(rows, cols)` (the script passes `[2, 2]`),
`window_size` is `(width, height)` from the parsed CLI resolution. -/
structure DisplayManager where
  grid_size : ℕ × ℕ
  window_size : ℕ × ℕ
  deriving DecidableEq, Repr

namespace DisplayManager

/-- `get_display_size` (lines 40-41):
`[int(window_size[0]/grid_size[1]), int(window_size[1]/grid_size[0])]`.
Python true division followed by `int()` truncation; on the non-negative
values arising here truncation is `Int.floor` of the rational quotient. -/
def get_display_size (d : DisplayManager) : ℤ × ℤ :=
  (⌊(d.window_size.1 : ℚ) / (d.grid_size.2 : ℚ)⌋,
   ⌊(d.window_size.2 : ℚ) / (d.grid_size.1 : ℚ)⌋)

/-- `get_display_offset` (lines 43-45): `gridPos` is `(row, col)` and the
result is `[int(col * dis_size[0]), int(row * dis_size[1])]`; the factors
are already integers, so `int()` is the identity. -/
def get_display_offset (d : DisplayManager) (gridPos : ℕ × ℕ) : ℤ × ℤ :=
  ((gridPos.2 : ℤ) * d.get_display_size.1,
   (gridPos.1 : ℤ) * d.get_display_size.2)

end DisplayManager

namespace SensorMonitorManager

/-- The string literal on line 94. -/
def rgbCameraLit : Chars := "RGBCamera".data

/-- The string literal on line 94. -/
def depthCameraLit : Chars := "DepthCamera".data

/-- The sensor-selection loop of `__init__` (lines 78-83): `self._sensor`
starts as `None` and is set to the first sensor of the vehicle monitor
whose `role_name` attribute contains `sensor_role_name` as a substring. -/
def findSensor (sensorRole : Chars) : List Actor → Option Actor
  | [] => none
  | s :: ss => if pyIn sensorRole s.role_name then some s else findSensor sensorRole ss

/-- Python truthiness of a string: non-empty strings are truthy. -/
def pyTruthy (s : Chars) : Bool := !s.isEmpty

/-- The condition on line 94, which parses as
`'RGBCamera' or ('DepthCamera' in self._sensor.attributes['role_name'])`:
`or` short-circuits on the truthiness of the left literal, and only when
that is falsy does it evaluate the right operand, whose attribute access
raises `AttributeError` when `self._sensor` is `None`. -/
def roleCond (sensor : Option Actor) : Except PyError Bool :=
  if pyTruthy rgbCameraLit then Except.ok true
  else
    match sensor with
    | none => Except.error PyError.attributeError
    | some s => Except.ok (pyIn depthCameraLit s.role_name)

/-- Whether a frame listener was attached, and to which sensor. -/
inductive ListenState where
  | listening (s : Actor)
  | notListening
  deriving DecidableEq, Repr

/-- `init_sensor_monitor` (lines 93-95): evaluate the role condition and,
when it holds, call `self._sensor.listen(...)`; when `self._sensor` is
`None` that attribute access raises `AttributeError`. -/
def init_sensor_monitor (sensor : Option Actor) : Except PyError ListenState := do
  let c ← roleCond sensor
  if c then
    match sensor with
    | none => Except.error PyError.attributeError
    | some s => Except.ok (ListenState.listening s)
  else
    Except.ok ListenState.notListening

/-- `__init__` (lines 70-91): select the sensor, then run
`init_sensor_monitor`; the result records the selected sensor and the
listener state. -/
def init (vmSensors : List Actor) (sensorRole : Chars) :
    Except PyError (Option Actor × ListenState) := do
  let sel := findSensor sensorRole vmSensors
  let ls ← init_sensor_monitor sel
  Except.ok (sel, ls)

/-- The attribute names `__init__` assigns on `self` (lines 70-91):
`surface`, `vehicle_monitor`, `display_man`, `display_pos`,
`color_converter`, `_sensor`, `timer`, `time_processing`,
`tics_processing`. -/
def initAssignedAttrs : List String :=
  ["surface", "vehicle_monitor", "display_man", "display_pos",
   "color_converter", "_sensor", "timer", "time_processing",
   "tics_processing"]

/-- Reading `self.<name>` on a freshly constructed manager: raises
`AttributeError` unless `__init__` assigned the attribute. -/
def readInitAttr (name : String) : Except PyError Unit :=
  if name ∈ initAssignedAttrs then Except.ok () else Except.error PyError.attributeError

/-- `get_sensor` (lines 97-98): returns `self.sensor`. -/
def get_sensor : Except PyError Unit := readInitAttr "sensor"

/-- `fit_display` (lines 120-138) on an image of size `(w, h)`: with
`stretch` the target is the cell size; otherwise the single ratio
`min(display_w / w, display_h / h)` scales both dimensions, each result
truncated by `int()` (equal to `Int.floor` on these non-negative
values). -/
def fit_display (d : DisplayManager) (w h : ℕ) (stretch : Bool) : ℤ × ℤ :=
  if stretch then d.get_display_size
  else
    (⌊(w : ℚ) * min ((d.get_display_size.1 : ℚ) / (w : ℚ))
        ((d.get_display_size.2 : ℚ) / (h : ℚ))⌋,
     ⌊(h : ℚ) * min ((d.get_display_size.1 : ℚ) / (w : ℚ))
        ((d.get_display_size.2 : ℚ) / (h : ℚ))⌋)

end SensorMonitorManager

/-- Parsed command-line arguments (`argparser`, lines 184-218, with
`width`/`height` derived from `res` in `main`, line 282). -/
structure Args where
  debug : Bool
  host : Chars
  port : ℤ
  width : ℕ
  height : ℕ
  sync : Bool
  rolename : Chars
  deriving DecidableEq, Repr

/-- The client construction in `monitor_loop` (line 228):
`carla.Client('127.0.0.1', 2000)`.  The literals are hard-coded; the
parsed arguments are not consulted. -/
def clientCtorArgs (_ : Args) : Chars × ℤ := ("127.0.0.1".data, 2000)

/-- Keyboard keys distinguished by the event loop. -/
inductive Key where
  | escape
  | q
  | other
  deriving DecidableEq, Repr

/-- UI events drained by the render loop. -/
inductive Event where
  | quit
  | keydown (k : Key)
  | other
  deriving DecidableEq, Repr

/-- The event-draining `for` loop of `monitor_loop` (lines 263-269),
threading `call_exit`: a quit event sets it and keeps iterating; a
key-down on escape or Q sets it and breaks out of the `for` loop; the
result is `call_exit` after the loop. -/
def drainEvents : Bool → List Event → Bool
  | c, [] => c
  | _, Event.quit :: rest => drainEvents true rest
  | c, Event.keydown k :: rest =>
      if k = Key.escape ∨ k = Key.q then true else drainEvents c rest
  | c, Event.other :: rest => drainEvents c rest

/-- An event that makes the loop body request exit: a quit event or a
key-down on escape or Q. -/
def isExitEvent : Event → Bool
  | Event.quit => true
  | Event.keydown k => decide (k = Key.escape ∨ k = Key.q)
  | Event.other => false

/-- The `while True` loop of `monitor_loop` (lines 254-272), driven by a
finite trace of per-tick event batches.  Each iteration drains one batch
with `call_exit` reset to `False` (a previous `True` would already have
exited) and breaks when it ends up `True`.  Returns the number of
iterations executed before exiting, or `none` when the trace is exhausted
with the loop still running. -/
def loopExitsAfter : List (List Event) → Option ℕ
  | [] => none
  | evs :: rest =>
      if drainEvents false evs then some 1
      else (loopExitsAfter rest).map (· + 1)

/-- The operations relevant to resource release in `monitor_loop`. -/
inductive TeardownAction where
  | pygameQuit
  | displayDestroy
  | sensorDestroy (s : ℕ)
  deriving DecidableEq, Repr

/-- The `finally` block of `monitor_loop` (lines 276-277): it runs
`pygame.quit()` and nothing else. -/
def monitorLoopTeardown : List TeardownAction := [TeardownAction.pygameQuit]

/-- `DisplayManager.destroy` (lines 62-64): calls `destroy` on every
registered sensor monitor (identified here by index). -/
def displayManagerDestroyCalls (sensor_list : List ℕ) : List TeardownAction :=
  sensor_list.map TeardownAction.sensorDestroy

/-- `SensorMonitorManager.destroy` (lines 146-147): `pass`; it performs
no release action. -/
def sensorMonitorDestroy : List TeardownAction := []

/-! ### Helper lemmas -/

theorem pyIn_eq_decide (n h : Chars) : pyIn n h = decide (n <:+: h) := by
  by_cases hx : n <:+: h
  · simp [hx, (pyIn_iff n h).2 hx]
  · have hb : pyIn n h = false := by
      rcases hc : pyIn n h with _ | _
      · rfl
      · exact absurd ((pyIn_iff n h).1 hc) hx
    simp [hb, hx]

theorem floorDivEq (m n : ℕ) : ⌊(m : ℚ) / (n : ℚ)⌋ = ((m / n : ℕ) : ℤ) := by
  rw [← Int.natCast_floor_eq_floor (by positivity), Nat.floor_div_eq_div]

theorem get_display_size_eq (d : DisplayManager) :
    d.get_display_size =
      (((d.window_size.1 / d.grid_size.2 : ℕ) : ℤ),
       ((d.window_size.2 / d.grid_size.1 : ℕ) : ℤ)) := by
  simp [DisplayManager.get_display_size, floorDivEq]

/-- A display manager as `monitor_loop` builds it (line 240) from the
default `1280x720` resolution: grid `[2, 2]`, window `[1280, 720]`. -/
def demoDisplay : DisplayManager := ⟨(2, 2), (1280, 720)⟩

theorem demoDisplay_size : demoDisplay.get_display_size = (640, 360) := by
  rw [get_display_size_eq]; decide

namespace VehicleMonitor

theorem findVehicle_eq_none (roleName : Chars) (vs : List Actor)
    (h : ∀ v ∈ vs, v.role_name ≠ roleName) : findVehicle roleName vs = none := by
  induction vs with
  | nil => rfl
  | cons v vs ih =>
    have hv := h v (List.mem_cons_self v vs)
    simp only [findVehicle, if_neg hv]
    exact ih fun u hu => h u (List.mem_cons_of_mem v hu)

theorem findVehicle_eq_find (roleName : Chars) (vs : List Actor) :
    findVehicle roleName vs = vs.find? fun a => decide (a.role_name = roleName) := by
  induction vs with
  | nil => rfl
  | cons v vs ih =>
    by_cases hv : v.role_name = roleName
    · simp [findVehicle, hv, List.find?_cons_of_pos]
    · rw [findVehicle, if_neg hv, ih, List.find?_cons_of_neg]
      simpa using hv

theorem sensorLoop_eq_filter (roleName : Chars) (ss acc : List Actor) :
    sensorLoop roleName ss acc = acc ++ ss.filter fun s => pyIn roleName s.role_name := by
  induction ss generalizing acc with
  | nil => simp [sensorLoop]
  | cons s ss ih =>
    rcases hs : pyIn roleName s.role_name with _ | _
    · simp [sensorLoop, hs, ih, List.filter_cons]
    · simp [sensorLoop, hs, ih, List.filter_cons]

end VehicleMonitor

namespace SensorMonitorManager

theorem findSensor_eq_none (sensorRole : Chars) (ss : List Actor)
    (h : ∀ s ∈ ss, pyIn sensorRole s.role_name = false) :
    findSensor sensorRole ss = none := by
  induction ss with
  | nil => rfl
  | cons s ss ih =>
    have hs := h s (List.mem_cons_self s ss)
    simp only [findSensor, hs, Bool.false_eq_true, if_neg]
    exact ih fun u hu => h u (List.mem_cons_of_mem s hu)

end SensorMonitorManager

theorem drainEvents_true (evs : List Event) : drainEvents true evs = true := by
  induction evs with
  | nil => rfl
  | cons e rest ih =>
    cases e with
    | quit => simpa [drainEvents] using ih
    | keydown k =>
      by_cases hk : k = Key.escape ∨ k = Key.q
      · simp [drainEvents, hk]
      · simpa [drainEvents, hk] using ih
    | other => simpa [drainEvents] using ih

theorem drainEvents_of_no_exit (c : Bool) (evs : List Event)
    (h : ∀ e ∈ evs, isExitEvent e = false) : drainEvents c evs = c := by
  induction evs with
  | nil => rfl
  | cons e rest ih =>
    have he := h e (List.mem_cons_self e rest)
    have hrest : ∀ e ∈ rest, isExitEvent e = false :=
      fun u hu => h u (List.mem_cons_of_mem e hu)
    cases e with
    | quit => simp [isExitEvent] at he
    | keydown k =>
      have hk : ¬(k = Key.escape ∨ k = Key.q) := by
        simpa [isExitEvent] using he
      simpa [drainEvents, hk] using ih hrest
    | other => simpa [drainEvents] using ih hrest

theorem drainEvents_of_exit (c : Bool) (evs : List Event)
    (h : ∃ e ∈ evs, isExitEvent e = true) : drainEvents c evs = true := by
  induction evs with
  | nil => simp at h
  | cons e rest ih =>
    rcases h with ⟨x, hx, hexit⟩
    rcases List.mem_cons.1 hx with rfl | hxr
    · cases x with
      | quit => simpa [drainEvents] using drainEvents_true rest
      | keydown k =>
        have hk : k = Key.escape ∨ k = Key.q := by
          simpa [isExitEvent] using hexit
        simp [drainEvents, hk]
      | other => simp [isExitEvent] at hexit
    · cases e with
      | quit => simpa [drainEvents] using drainEvents_true rest
      | keydown k =>
        by_cases hk : k = Key.escape ∨ k = Key.q
        · simp [drainEvents, hk]
        · simpa [drainEvents, hk] using ih ⟨x, hxr, hexit⟩
      | other => simpa [drainEvents] using ih ⟨x, hxr, hexit⟩

/-- A world snapshot with a non-matching vehicle, two vehicles carrying
the `hero` role name, a sensor tagged with the vehicle role name, and an
unrelated sensor. -/
def demoWorld : World :=
  ⟨[⟨"npc".data⟩, ⟨"hero".data⟩, ⟨"hero".data⟩],
   [⟨"hero_RGBCamera_Driver_Seat".data⟩, ⟨"lidar".data⟩]⟩

/-! ### Claim theorems -/

/-- C1: when no vehicle actor's `role_name` attribute equals the
configured role name, constructing `VehicleMonitor` raises
`AttributeError` — the loop never assigns `self.vehicle`, so the guard
`if self.vehicle is None` fails on the attribute read — and not the
`ValueError` the claim states, whose raise statement is unreachable. -/
theorem vehicleMonitor_no_match_attributeError (world : World) (roleName : Chars)
    (h : ∀ v ∈ world.vehicles, v.role_name ≠ roleName) :
    VehicleMonitor.init world roleName = Except.error PyError.attributeError ∧
    VehicleMonitor.init world roleName ≠ Except.error PyError.valueError := by
  have hfv : VehicleMonitor.findVehicle roleName world.vehicles = none :=
    VehicleMonitor.findVehicle_eq_none roleName world.vehicles h
  have hmain : VehicleMonitor.init world roleName = Except.error PyError.attributeError := by
    unfold VehicleMonitor.init
    rw [hfv]
    rfl
  exact ⟨hmain, by simp [hmain]⟩

theorem vehicleMonitor_no_match_attributeError_witness :
    (∀ v ∈ (World.mk [⟨"npc".data⟩] [⟨"hero_RGBCamera".data⟩]).vehicles,
        v.role_name ≠ "hero".data) ∧
    VehicleMonitor.init (World.mk [⟨"npc".data⟩] [⟨"hero_RGBCamera".data⟩]) "hero".data =
      Except.error PyError.attributeError :=
  ⟨by decide, (vehicleMonitor_no_match_attributeError _ _ (by decide)).1⟩

/-- C2: refuted at a concrete argument set — `monitor_loop` constructs
the simulator client from the hard-coded literals `'127.0.0.1'` and
`2000` (line 228), not from the parsed `--host`/`--port` values, even
though the CLI help and the startup log message advertise those flags. -/
theorem clientCtor_ignores_host_port :
    clientCtorArgs (Args.mk false "192.168.1.7".data 3000 1280 720 false "hero".data) ≠
      ((Args.mk false "192.168.1.7".data 3000 1280 720 false "hero".data).host,
       (Args.mk false "192.168.1.7".data 3000 1280 720 false "hero".data).port) := by
  decide

/-- C3: with `stretch=False`, `fit_display` scales both image dimensions
by the single ratio `min(cell_w / w, cell_h / h)`, and the truncated
results never exceed the cell bounds. -/
theorem fit_display_preserves_bounds (d : DisplayManager) (w h : ℕ)
    (hw : 0 < w) (hh : 0 < h)
    (hdw : 0 < d.get_display_size.1) (hdh : 0 < d.get_display_size.2) :
    SensorMonitorManager.fit_display d w h false =
      (⌊(w : ℚ) * min ((d.get_display_size.1 : ℚ) / (w : ℚ))
          ((d.get_display_size.2 : ℚ) / (h : ℚ))⌋,
       ⌊(h : ℚ) * min ((d.get_display_size.1 : ℚ) / (w : ℚ))
          ((d.get_display_size.2 : ℚ) / (h : ℚ))⌋) ∧
    (SensorMonitorManager.fit_display d w h false).1 ≤ d.get_display_size.1 ∧
    (SensorMonitorManager.fit_display d w h false).2 ≤ d.get_display_size.2 := by
  have hw0 : ((w : ℚ)) ≠ 0 := Nat.cast_ne_zero.mpr hw.ne'
  have hh0 : ((h : ℚ)) ≠ 0 := Nat.cast_ne_zero.mpr hh.ne'
  have hfd : SensorMonitorManager.fit_display d w h false =
      (⌊(w : ℚ) * min ((d.get_display_size.1 : ℚ) / (w : ℚ))
          ((d.get_display_size.2 : ℚ) / (h : ℚ))⌋,
       ⌊(h : ℚ) * min ((d.get_display_size.1 : ℚ) / (w : ℚ))
          ((d.get_display_size.2 : ℚ) / (h : ℚ))⌋) := by
    simp [SensorMonitorManager.fit_display]
  refine ⟨hfd, ?_, ?_⟩
  · rw [hfd]
    have h1 : (w : ℚ) * min ((d.get_display_size.1 : ℚ) / (w : ℚ))
        ((d.get_display_size.2 : ℚ) / (h : ℚ)) ≤ ((d.get_display_size.1 : ℤ) : ℚ) := by
      have h2 : (w : ℚ) * min ((d.get_display_size.1 : ℚ) / (w : ℚ))
          ((d.get_display_size.2 : ℚ) / (h : ℚ)) ≤
          (w : ℚ) * ((d.get_display_size.1 : ℚ) / (w : ℚ)) :=
        mul_le_mul_of_nonneg_left (min_le_left _ _) (by positivity)
      have h3 : (w : ℚ) * ((d.get_display_size.1 : ℚ) / (w : ℚ)) =
          (d.get_display_size.1 : ℚ) := by
        rw [mul_comm]; exact div_mul_cancel₀ _ hw0
      rw [h3] at h2
      exact h2
    have h4 := Int.floor_le_floor h1
    rwa [Int.floor_intCast] at h4
  · rw [hfd]
    have h1 : (h : ℚ) * min ((d.get_display_size.1 : ℚ) / (w : ℚ))
        ((d.get_display_size.2 : ℚ) / (h : ℚ)) ≤ ((d.get_display_size.2 : ℤ) : ℚ) := by
      have h2 : (h : ℚ) * min ((d.get_display_size.1 : ℚ) / (w : ℚ))
          ((d.get_display_size.2 : ℚ) / (h : ℚ)) ≤
          (h : ℚ) * ((d.get_display_size.2 : ℚ) / (h : ℚ)) :=
        mul_le_mul_of_nonneg_left (min_le_right _ _) (by positivity)
      have h3 : (h : ℚ) * ((d.get_display_size.2 : ℚ) / (h : ℚ)) =
          (d.get_display_size.2 : ℚ) := by
        rw [mul_comm]; exact div_mul_cancel₀ _ hh0
      rw [h3] at h2
      exact h2
    have h4 := Int.floor_le_floor h1
    rwa [Int.floor_intCast] at h4

theorem fit_display_preserves_bounds_witness :
    0 < (800 : ℕ) ∧ 0 < (600 : ℕ) ∧
    0 < demoDisplay.get_display_size.1 ∧ 0 < demoDisplay.get_display_size.2 ∧
    (SensorMonitorManager.fit_display demoDisplay 800 600 false).1 ≤
      demoDisplay.get_display_size.1 ∧
    (SensorMonitorManager.fit_display demoDisplay 800 600 false).2 ≤
      demoDisplay.get_display_size.2 := by
  have h1 : 0 < demoDisplay.get_display_size.1 := by rw [demoDisplay_size]; decide
  have h2 : 0 < demoDisplay.get_display_size.2 := by rw [demoDisplay_size]; decide
  have hmain := fit_display_preserves_bounds demoDisplay 800 600 (by decide) (by decide) h1 h2
  exact ⟨by decide, by decide, h1, h2, hmain.2.1, hmain.2.2⟩

/-- C4 counterexample: with window `[1281, 720]` and grid `[2, 2]`,
`get_display_size` returns cell width `int(1281 / 2) = 640`, and
`2 * 640 ≠ 1281`: the column count times the cell width does not recover
the window width, refuting the claimed even division. -/
theorem get_display_size_uneven_counterexample :
    ¬ ((DisplayManager.mk (2, 2) (1281, 720)).grid_size.2 : ℤ) *
        (DisplayManager.mk (2, 2) (1281, 720)).get_display_size.1 =
      ((DisplayManager.mk (2, 2) (1281, 720)).window_size.1 : ℤ) := by
  rw [get_display_size_eq]
  decide

/-- C4 amended: `get_display_size` returns the truncated quotients
`[⌊w / cols⌋, ⌊h / rows⌋]`; multiplying back by the grid dimension
recovers the window dimension exactly when the grid dimension divides
it. -/
theorem get_display_size_floor_division (d : DisplayManager)
    (hc : 0 < d.grid_size.2) (hr : 0 < d.grid_size.1) :
    d.get_display_size =
      (((d.window_size.1 / d.grid_size.2 : ℕ) : ℤ),
       ((d.window_size.2 / d.grid_size.1 : ℕ) : ℤ)) ∧
    (d.grid_size.2 ∣ d.window_size.1 →
      (d.grid_size.2 : ℤ) * d.get_display_size.1 = (d.window_size.1 : ℤ)) ∧
    (d.grid_size.1 ∣ d.window_size.2 →
      (d.grid_size.1 : ℤ) * d.get_display_size.2 = (d.window_size.2 : ℤ)) := by
  refine ⟨get_display_size_eq d, ?_, ?_⟩
  · intro hd
    have h1 : d.get_display_size.1 = ((d.window_size.1 / d.grid_size.2 : ℕ) : ℤ) := by
      rw [get_display_size_eq]
    rw [h1]
    exact_mod_cast Nat.mul_div_cancel' hd
  · intro hd
    have h2 : d.get_display_size.2 = ((d.window_size.2 / d.grid_size.1 : ℕ) : ℤ) := by
      rw [get_display_size_eq]
    rw [h2]
    exact_mod_cast Nat.mul_div_cancel' hd

theorem get_display_size_floor_division_witness :
    0 < demoDisplay.grid_size.2 ∧ 0 < demoDisplay.grid_size.1 ∧
    demoDisplay.grid_size.2 ∣ demoDisplay.window_size.1 ∧
    (demoDisplay.grid_size.2 : ℤ) * demoDisplay.get_display_size.1 =
      (demoDisplay.window_size.1 : ℤ) :=
  ⟨by decide, by decide, by decide,
    (get_display_size_floor_division demoDisplay (by decide) (by decide)).2.1 (by decide)⟩

/-- C5: for a valid grid position `(row, col)`, `get_display_offset`
returns `[col * ⌊window_w / cols⌋, row * ⌊window_h / rows⌋]`: the grid
position scaled by the `window_size / grid_size` cell dimensions. -/
theorem get_display_offset_scaled (d : DisplayManager) (row col : ℕ)
    (hrow : row < d.grid_size.1) (hcol : col < d.grid_size.2) :
    d.get_display_offset (row, col) =
      ((col : ℤ) * ((d.window_size.1 / d.grid_size.2 : ℕ) : ℤ),
       (row : ℤ) * ((d.window_size.2 / d.grid_size.1 : ℕ) : ℤ)) := by
  simp [DisplayManager.get_display_offset, get_display_size_eq]

theorem get_display_offset_scaled_witness :
    1 < demoDisplay.grid_size.1 ∧ 1 < demoDisplay.grid_size.2 ∧
    demoDisplay.get_display_offset (1, 1) = ((640 : ℤ), (360 : ℤ)) := by
  refine ⟨by decide, by decide, ?_⟩
  rw [get_display_offset_scaled demoDisplay 1 1 (by decide) (by decide)]
  decide

/-- C6: when some vehicle matches, `VehicleMonitor` construction selects
the first vehicle whose `role_name` attribute equals the configured role
name, and collects exactly the sensors whose `role_name` attribute
contains that role name as a substring. -/
theorem vehicleMonitor_first_match_sensor_filter
    (world : World) (roleName : Chars) (v : Actor)
    (h : world.vehicles.find? (fun a => decide (a.role_name = roleName)) = some v) :
    VehicleMonitor.init world roleName =
      Except.ok ⟨v, world.sensors.filter fun s => decide (roleName <:+: s.role_name)⟩ := by
  have hfv : VehicleMonitor.findVehicle roleName world.vehicles = some v := by
    rw [VehicleMonitor.findVehicle_eq_find]; exact h
  have hinit : VehicleMonitor.init world roleName =
      Except.ok ⟨v, VehicleMonitor.sensorLoop roleName world.sensors []⟩ := by
    unfold VehicleMonitor.init
    rw [hfv]
    rfl
  rw [hinit, VehicleMonitor.sensorLoop_eq_filter]
  simp only [List.nil_append, pyIn_eq_decide]

theorem vehicleMonitor_first_match_sensor_filter_witness :
    demoWorld.vehicles.find? (fun a => decide (a.role_name = "hero".data)) =
      some ⟨"hero".data⟩ ∧
    VehicleMonitor.init demoWorld "hero".data =
      Except.ok ⟨⟨"hero".data⟩,
        demoWorld.sensors.filter fun s => decide ("hero".data <:+: s.role_name)⟩ :=
  ⟨by decide,
    vehicleMonitor_first_match_sensor_filter demoWorld "hero".data ⟨"hero".data⟩ (by decide)⟩

/-- C7: if every batch drained before `evs` contains no exit event and
`evs` contains a quit event or an escape/Q key-down, the render loop sets
the exit flag in the iteration that drains `evs` and terminates right
after it, never continuing past that iteration. -/
theorem loop_exits_on_exit_event (pre : List (List Event)) (evs : List Event)
    (post : List (List Event))
    (hpre : ∀ b ∈ pre, ∀ e ∈ b, isExitEvent e = false)
    (hevs : ∃ e ∈ evs, isExitEvent e = true) :
    loopExitsAfter (pre ++ evs :: post) = some (pre.length + 1) := by
  induction pre with
  | nil => simp [loopExitsAfter, drainEvents_of_exit false evs hevs]
  | cons b bs ih =>
    have hb : drainEvents false b = false :=
      drainEvents_of_no_exit false b (hpre b (List.mem_cons_self b bs))
    have hbs : ∀ b' ∈ bs, ∀ e ∈ b', isExitEvent e = false :=
      fun b' hb' => hpre b' (List.mem_cons_of_mem b hb')
    simp [loopExitsAfter, hb, ih hbs]

theorem loop_exits_on_exit_event_witness :
    (∀ b ∈ [[Event.other]], ∀ e ∈ b, isExitEvent e = false) ∧
    (∃ e ∈ [Event.keydown Key.escape], isExitEvent e = true) ∧
    loopExitsAfter ([[Event.other]] ++ [Event.keydown Key.escape] :: [[Event.quit]]) =
      some ([[Event.other]].length + 1) :=
  ⟨by decide, by decide,
    loop_exits_on_exit_event [[Event.other]] [Event.keydown Key.escape] [[Event.quit]]
      (by decide) (by decide)⟩

/-- C8 counterexample: the `finally` block of `monitor_loop` never
invokes the display manager's `destroy`, so the claimed release of the
registered sensor monitors through it does not happen. -/
theorem teardown_no_display_destroy :
    TeardownAction.displayDestroy ∉ monitorLoopTeardown := by decide

/-- C8 amended: on every exit path the `finally` block runs, but it
invokes only `pygame.quit()`; it never invokes `DisplayManager.destroy`.
`DisplayManager.destroy`, were it invoked, would issue one destroy call
per registered sensor monitor, and each such call
(`SensorMonitorManager.destroy`) releases nothing. -/
theorem teardown_only_pygame_quit :
    monitorLoopTeardown = [TeardownAction.pygameQuit] ∧
    (∀ a ∈ monitorLoopTeardown, a = TeardownAction.pygameQuit) ∧
    (∀ l : List ℕ, displayManagerDestroyCalls l = l.map TeardownAction.sensorDestroy) ∧
    sensorMonitorDestroy = [] :=
  ⟨rfl, by decide, fun _ => rfl, rfl⟩

/-- C9: the role-name condition of `init_sensor_monitor` evaluates to
true regardless of the selected sensor, because the non-empty literal
`'RGBCamera'` is truthy and `or` short-circuits; the listener attachment
is therefore unconditional, and when no sensor's role name contains the
requested one, construction raises `AttributeError` on the `None`
sensor instead of skipping listener setup. -/
theorem roleCond_truthy_listener_unconditional
    (vmSensors : List Actor) (sensorRole : Chars)
    (h : ∀ s ∈ vmSensors, pyIn sensorRole s.role_name = false) :
    (∀ sel : Option Actor, SensorMonitorManager.roleCond sel = Except.ok true) ∧
    SensorMonitorManager.init vmSensors sensorRole =
      Except.error PyError.attributeError := by
  have hfs : SensorMonitorManager.findSensor sensorRole vmSensors = none :=
    SensorMonitorManager.findSensor_eq_none sensorRole vmSensors h
  refine ⟨fun sel => rfl, ?_⟩
  unfold SensorMonitorManager.init
  rw [hfs]
  rfl

theorem roleCond_truthy_listener_unconditional_witness :
    (∀ s ∈ [Actor.mk "lidar".data],
        pyIn "RGBCamera_Driver_Seat".data s.role_name = false) ∧
    SensorMonitorManager.roleCond none = Except.ok true ∧
    SensorMonitorManager.init [Actor.mk "lidar".data] "RGBCamera_Driver_Seat".data =
      Except.error PyError.attributeError := by
  have hmain := roleCond_truthy_listener_unconditional [Actor.mk "lidar".data]
    "RGBCamera_Driver_Seat".data (by decide)
  exact ⟨by decide, hmain.1 none, hmain.2⟩

/-- C10: `get_sensor` reads `self.sensor`, an attribute that no code path
assigns — the constructor stores the selected sensor under `_sensor` —
so every call raises `AttributeError`. -/
theorem get_sensor_raises_attributeError :
    SensorMonitorManager.get_sensor = Except.error PyError.attributeError ∧
    "sensor" ∉ SensorMonitorManager.initAssignedAttrs ∧
    "_sensor" ∈ SensorMonitorManager.initAssignedAttrs := by
  refine ⟨?_, by decide, by decide⟩
  rfl

end CarMonitor
